import Mathlib

/-!
Verification of the kubelse container-scanning pipeline (package `cmd`):
capability probing (`getShellInContainer`, `checkUtilInContainer`,
`checkUtils`, `verifyContainers`), report persistence (`saveScan`),
the scan pipeline (`scan`, `scanContainers`) and format validation
(`PreRunE` of the root command).

The remote executor (package `k8sexec`) is an external collaborator; it is
modelled as a function parameter returning a status class together with
captured stdout and error lines, exactly the shape the pipeline consumes.
Concurrency collapses to sequential list processing: each worker-pool stage
is a `List.map`, each collector a fold, which preserves the per-container
data flow the claims are about.  The `log` function drops its message when
the `quiet` flag is set; it is modelled as a function returning the list of
messages actually enqueued.
-/

namespace Kubelse

/-- Status class returned by the remote executor (`k8sexec.RetCode`):
success, command-not-found, command-cannot-execute, or any other failure. -/
inductive RetCode where
  | success
  | commandNotFound
  | commandCannotExecute
  | otherFailure
deriving DecidableEq, Repr

/-- Result of one remote execution (`k8sexec.ExecStatus`): status class,
captured stdout lines and captured error lines. -/
structure ExecStatus where
  retCode : RetCode
  stdout : List String
  error : List String
deriving DecidableEq, Repr

/-- Type `Container` from misc.go: identity of one container within one pod. -/
structure Container where
  pod : String
  container : String
deriving DecidableEq, Repr

/-- Type `ContainerInfo` from misc.go: a container together with its detected
shell and testability classification. -/
structure ContainerInfo where
  container : Container
  shell : String
  testable : Bool
deriving DecidableEq, Repr

/-- Type `Result` from misc.go: pod name, container name and captured scan
output lines. -/
structure Result where
  podName : String
  containerName : String
  scanReport : List String
deriving DecidableEq, Repr

/-- The remote-execution capability `k8s.Exec`: container, command words,
optional stdin payload. -/
abbrev Exec : Type := Container → List String → Option String → ExecStatus

/-- Character-level worker for `strFields`: accumulate the current word
(in reverse) and cut at each space. -/
def fieldsAux : List Char → List Char → List String
  | acc, [] => if acc.isEmpty then [] else [String.mk acc.reverse]
  | acc, c :: rest =>
      if c = ' ' then
        if acc.isEmpty then fieldsAux [] rest
        else String.mk acc.reverse :: fieldsAux [] rest
      else fieldsAux (c :: acc) rest

/-- Model of `strings.Fields`: split a command string into words separated by
spaces, dropping empty words (the source only passes space-separated
words, never tabs or newlines). -/
def strFields (s : String) : List String :=
  fieldsAux [] s.data

/-- Model of `log` from misc.go: the message is enqueued on the log channel only
when `quiet` is not set; returns the list of messages actually enqueued. -/
def logMsg (quiet : Bool) (msg : String) : List String :=
  if quiet then [] else [msg]

/-- String `htmlHeader` from misc.go. -/
def htmlHeader : String :=
  "\n<?xml version=\"1.0\" encoding=\"UTF-8\" ?>\n<!DOCTYPE html PUBLIC \"-//W3C//DTD XHTML 1.0 Strict//EN\" \"http://www.w3.org/TR/xhtml1/DTD/xhtml1-strict.dtd\">\n<html xmlns=\"http://www.w3.org/1999/xhtml\">\n<head>\n<meta http-equiv=\"Content-Type\" content=\"application/xml+xhtml; charset=UTF-8\"/>\n<title>stdin</title>\n</head>\n<body style=\"color:white; background-color:black\">\n<pre>"

/-- String `htmlFooter` from misc.go. -/
def htmlFooter : String := "\n</pre>\n</body>\n</html>"

/-- Function `getShellInContainer` from misc.go: probe `sh --version`, then
`bash --version`; the first candidate answering with a success status is
the shell; otherwise an error carrying the joined error lines. -/
def getShellInContainer (exec : Exec) (c : Container) : Except String String :=
  let execStatus := exec c (strFields "sh --version") none
  if execStatus.retCode = RetCode.success then .ok "sh"
  else
    let execStatus2 := exec c (strFields "bash --version") none
    if execStatus2.retCode = RetCode.success then .ok "bash"
    else .error (String.intercalate "\n" execStatus2.error)

/-- Function `checkUtilInContainer` from misc.go: the utility counts as present
unless the executor reports command-not-found or command-cannot-execute;
the second component is the joined error text the caller discards. -/
def checkUtilInContainer (exec : Exec) (c : Container) (util : String) :
    Bool × String :=
  let execStatus := exec c (strFields util) none
  (execStatus.retCode != RetCode.commandNotFound
     && execStatus.retCode != RetCode.commandCannotExecute,
   String.intercalate "\n" execStatus.error)

/-- Loop body of `checkUtils` from misc.go: fold the presence results with
`&&`, breaking out of the loop at the first `false`. -/
def checkUtilsAux (exec : Exec) (c : Container) :
    Bool → List String → Bool
  | utilFound, [] => utilFound
  | utilFound, util :: rest =>
      let result := (checkUtilInContainer exec c util).1
      let utilFound2 := utilFound && result
      if result then checkUtilsAux exec c utilFound2 rest else utilFound2

/-- Function `checkUtils` from misc.go: the accumulator starts at `true`. -/
def checkUtils (exec : Exec) (c : Container) (utils : List String) : Bool :=
  checkUtilsAux exec c true utils

/-- Instrumented version of the `checkUtils` loop that also records the
utilities actually probed (each loop iteration issues exactly one remote
probe); proved to agree with `checkUtilsAux` in `checkUtilsTrace_fst`. -/
def checkUtilsTrace (exec : Exec) (c : Container) :
    Bool → List String → Bool × List String
  | utilFound, [] => (utilFound, [])
  | utilFound, util :: rest =>
      let result := (checkUtilInContainer exec c util).1
      let utilFound2 := utilFound && result
      if result then
        let r := checkUtilsTrace exec c utilFound2 rest
        (r.1, util :: r.2)
      else (utilFound2, [util])

/-- Body of the verification worker in `verifyContainers` (misc.go):
detect the shell (discarding the probe error), then set `testable` to the
conjunction of the utility check and shell presence. -/
def probeContainer (exec : Exec) (utils : List String) (c : Container) :
    ContainerInfo :=
  let shell := match getShellInContainer exec c with
    | .ok s => s
    | .error _ => ""
  { container := c
    shell := shell
    testable := checkUtils exec c utils && shell != "" }

/-- The verification worker body emits no log messages: the errors of
`getShellInContainer` and `checkUtilInContainer` are bound to `_` and
discarded, and `log` is never called inside `verifyContainers`. -/
def proberWorkerStep (exec : Exec) (utils : List String) (c : Container) :
    ContainerInfo × List String :=
  (probeContainer exec utils c, [])

/-- Function `verifyContainers` from misc.go: returns `(nil, nil)` when the utility
list is empty; otherwise every container is probed once and the collector
appends it to `target` when testable and to `nontestable` otherwise. -/
def verifyContainers (exec : Exec) (utils : List String)
    (containers : List Container) :
    List ContainerInfo × List ContainerInfo :=
  if utils.length = 0 then ([], [])
  else
    let infos := containers.map (probeContainer exec utils)
    (infos.filter (fun i => i.testable), infos.filter (fun i => !i.testable))

/-- Pod/container identities of a classified list. -/
def refsOf (l : List ContainerInfo) : List Container :=
  l.map (fun i => i.container)

/-- Byte content built by `saveScan` (misc.go): the html format wraps the
ANSI-to-HTML conversion of the joined output lines in the fixed header and
footer; every other format writes the joined output lines as they are. -/
def reportBytes (convert : String → String) (format : String)
    (scanReport : List String) : String :=
  if format = "html" then
    htmlHeader ++ convert (String.intercalate "\n" scanReport) ++ htmlFooter
  else String.intercalate "\n" scanReport

/-- Function `saveScan` from misc.go: build the report file name from pod,
container, timestamp and format, build the report bytes, and attempt the
file write (`write` returns `some err` on failure, as `os.WriteFile`
does); on success the written (name, content) pair is the effect. -/
def saveScan (write : String → String → Option String)
    (convert : String → String)
    (directory format timestamp podName containerName : String)
    (scanReport : List String) : Except String (String × String) :=
  let fileName :=
    directory ++ "/" ++ podName ++ "-" ++ containerName ++ "-" ++ timestamp
      ++ "." ++ format
  let report := reportBytes convert format scanReport
  match write fileName report with
  | some err => .error err
  | none => .ok (fileName, report)

/-- Shell invocation string selected per output format in `scan`
(misc.go): for the text format the shell is extended with the flags that
force non-interactive batch execution. -/
def scanShellInvocation (format shell : String) : String :=
  if format = "text" then shell ++ " -s -- -c" else shell

/-- Body of a scan worker in `scan` (misc.go): extend the shell with
batch flags for the text format, run the script through stdin, log the
joined error text when the status is not success, and always emit a
`Result` carrying the captured stdout. -/
def scanWorker (quiet : Bool) (exec : Exec) (script : String)
    (format : String) (info : ContainerInfo) : Result × List String :=
  let shell := scanShellInvocation format info.shell
  let execStatus := exec info.container (strFields shell) (some script)
  let logs := if execStatus.retCode != RetCode.success then
      logMsg quiet (String.intercalate "\n" execStatus.error)
    else []
  (⟨info.container.pod, info.container.container, execStatus.stdout⟩, logs)

/-- State of the results-collector goroutine in `scan` (misc.go): files
successfully written, log messages enqueued, and the progress counter. -/
structure WriterState where
  files : List (String × String)
  logs : List String
  cnt : Nat
deriving DecidableEq, Repr

/-- One iteration of the results collector in `scan` (misc.go): save the
scan; on failure log the error and dump the raw report; in both cases
advance the progress counter and log the progress line. -/
def writerStep (quiet : Bool) (write : String → String → Option String)
    (convert : String → String) (directory format timestamp : String)
    (st : WriterState) (r : Result) : WriterState :=
  match saveScan write convert directory format timestamp r.podName
      r.containerName r.scanReport with
  | .ok f =>
      { files := st.files ++ [f]
        logs := st.logs
          ++ logMsg quiet ("\rAnalyzed " ++ toString (st.cnt + 1)
               ++ " containers")
        cnt := st.cnt + 1 }
  | .error err =>
      { files := st.files
        logs := st.logs ++ logMsg quiet err
          ++ logMsg quiet (String.intercalate "\n" r.scanReport)
          ++ logMsg quiet ("\rAnalyzed " ++ toString (st.cnt + 1)
               ++ " containers")
        cnt := st.cnt + 1 }

/-- The results collector of `scan` (misc.go), draining the results list. -/
def reportWriter (quiet : Bool) (write : String → String → Option String)
    (convert : String → String) (directory format timestamp : String)
    (results : List Result) : WriterState :=
  results.foldl (writerStep quiet write convert directory format timestamp)
    ⟨[], [], 0⟩

/-- Character-level line-ending normalization: every CRLF becomes LF and
every remaining CR is removed, the combined effect of the two
`bytes.Replace` calls in `scan` (misc.go). -/
def normalizeChars : List Char → List Char
  | [] => []
  | '\r' :: '\n' :: rest => '\n' :: normalizeChars rest
  | '\r' :: rest => normalizeChars rest
  | c :: rest => c :: normalizeChars rest

/-- The line-ending normalization applied to the embedded script in `scan`
(misc.go): CRLF to LF, then stray CR removed. -/
def normalizeScript (script : String) : String :=
  String.mk (normalizeChars script.data)

/-- The stage-2 pipeline of `scan` (misc.go): every testable container is
taken from the queue by a worker, producing one `Result` each (plus worker
log messages), and the collector drains the results. -/
def scanPipeline (quiet : Bool) (write : String → String → Option String)
    (convert : String → String) (directory format timestamp : String)
    (exec : Exec) (script : String) (targets : List ContainerInfo) :
    List Result × List String × WriterState :=
  let script2 := normalizeScript script
  let outs := targets.map (scanWorker quiet exec script2 format)
  let results := outs.map (fun o => o.1)
  let workerLogs := (outs.map (fun o => o.2)).flatten
  (results, workerLogs,
   reportWriter quiet write convert directory format timestamp results)

/-- Function `scan` from misc.go, sequential semantics: classify, abort when no
container is testable, pass the confirmation gate (skipped when quiet,
`answerYes` standing for the prompt decision), then run the scan pipeline.
On success: files written, scan-stage log messages, progress counter. -/
def scan (quiet answerYes : Bool)
    (write : String → String → Option String) (convert : String → String)
    (directory format timestamp : String) (exec : Exec) (script : String)
    (utils : List String) (containers : List Container) :
    Except String (List (String × String) × List String × Nat) :=
  let classified := verifyContainers exec utils containers
  let target := classified.1
  if target.length = 0 then
    .error "[-] Did not find any containers that can be tested"
  else if !quiet && !answerYes then .error "Action cancelled."
  else
    let p := scanPipeline quiet write convert directory format timestamp
      exec script target
    .ok (p.2.2.files, p.2.1 ++ p.2.2.logs, p.2.2.cnt)

/-- Function `scanContainers` from misc.go: abort with the no-containers condition
when the discovered list is empty, otherwise run `scan`. -/
def scanContainers (ns : String) (quiet answerYes : Bool)
    (write : String → String → Option String) (convert : String → String)
    (directory format timestamp : String) (exec : Exec) (script : String)
    (utils : List String) (containers : List Container) :
    Except String (List (String × String) × List String × Nat) :=
  if containers.length = 0 then
    .error ("[-] No pods/containers found in namespace \"" ++ ns ++ "\"\n")
  else
    scan quiet answerYes write convert directory format timestamp exec
      script utils containers

/-- The `PreRunE` format validation from root.go: the run proceeds exactly
when the condition `format != "ansi" && format != "text" && format != "json"`
is false; otherwise the invalid-format error is returned. -/
def validateFormat (format : String) : Except String Unit :=
  if format != "ansi" && format != "text" && format != "json" then
    .error "Invalid value of the output format option -o. Valid values are ansi, text or html"
  else .ok ()

/-- Variable `utils` from misc.go: the fixed required-utility probe list. -/
def defaultUtils : List String :=
  ["stat /usr/bin/find", "stat /bin/cat", "stat /bin/grep"]


deriving instance DecidableEq for Except

/-- Spec-side definition for claim C3, following the spec words: the shell
recorded for a container is the first of the ordered candidate list
("sh", then "bash") whose version probe returns a success status, and the
empty string when neither succeeds. -/
def specFirstSuccessfulShell (exec : Exec) (c : Container) : String :=
  if (exec c (strFields "sh --version") none).retCode = RetCode.success then
    "sh"
  else if (exec c (strFields "bash --version") none).retCode
      = RetCode.success then "bash"
  else ""

/-- Sample executor: every remote command succeeds. -/
def execAllOk : Exec := fun _ _ _ => ⟨RetCode.success, ["ok"], []⟩

/-- Sample executor: every remote command fails with captured error text. -/
def execAllFail : Exec := fun _ _ _ => ⟨RetCode.otherFailure, [], ["errtext"]⟩

/-- Sample executor: utility probes (commands starting with `stat`) report
command-not-found; everything else succeeds. -/
def execUtilNotFound : Exec := fun _ cmd _ =>
  if cmd.head? = some "stat" then ⟨RetCode.commandNotFound, [], ["nf"]⟩
  else ⟨RetCode.success, [], []⟩

/-- Sample executor: probes succeed but the scan invocation (the bare
one-word shell command) fails with captured error text. -/
def execScanFails : Exec := fun _ cmd _ =>
  if cmd = ["sh"] then ⟨RetCode.otherFailure, [], ["boom"]⟩
  else ⟨RetCode.success, ["ok"], []⟩

/-- Sample file writer: every write succeeds. -/
def writeOk : String → String → Option String := fun _ _ => none

/-- Sample file writer: every write fails with error text `werr`. -/
def writeFail : String → String → Option String := fun _ _ => some "werr"

/-- Projection of a probed container back to its identity. -/
theorem probeContainer_container (exec : Exec) (utils : List String)
    (c : Container) : (probeContainer exec utils c).container = c := rfl

/-- Mapping probing over a container list preserves the identities. -/
theorem refsOf_map_probe (exec : Exec) (utils : List String)
    (containers : List Container) :
    refsOf (containers.map (probeContainer exec utils)) = containers := by
  unfold refsOf
  rw [List.map_map]
  have h : ((fun i : ContainerInfo => i.container) ∘ probeContainer exec utils)
      = id := by
    funext c
    rfl
  rw [h, List.map_id]

/-- Claim C1: for every input list of containers given to
`verifyContainers` with a non-empty utility list, the identities of the
`target` and `nontestable` outputs together are a permutation of the input
list (every input container appears in exactly one of the two lists
exactly once) and the two identity lists are disjoint. -/
theorem verifyContainers_partition (exec : Exec) (utils : List String)
    (containers : List Container) (h : utils ≠ []) :
    (refsOf (verifyContainers exec utils containers).1
      ++ refsOf (verifyContainers exec utils containers).2).Perm containers
    ∧ List.Disjoint (refsOf (verifyContainers exec utils containers).1)
        (refsOf (verifyContainers exec utils containers).2) := by
  have hlen : ¬ utils.length = 0 := by
    simpa [List.length_eq_zero] using h
  have hv : verifyContainers exec utils containers =
      ((containers.map (probeContainer exec utils)).filter
         (fun i => i.testable),
       (containers.map (probeContainer exec utils)).filter
         (fun i => !i.testable)) := by
    simp [verifyContainers, hlen]
  rw [hv]
  constructor
  · have hperm := (List.filter_append_perm (fun i : ContainerInfo => i.testable)
      (containers.map (probeContainer exec utils))).map
      (fun i : ContainerInfo => i.container)
    have := refsOf_map_probe exec utils containers
    unfold refsOf at this ⊢
    rw [← List.map_append]
    rw [this] at hperm
    exact hperm
  · intro c hc1 hc2
    unfold refsOf at hc1 hc2
    obtain ⟨i1, hi1mem, hi1c⟩ := List.mem_map.mp hc1
    obtain ⟨i2, hi2mem, hi2c⟩ := List.mem_map.mp hc2
    have hp1 := (List.mem_filter.mp hi1mem).2
    have hp2 := (List.mem_filter.mp hi2mem).2
    obtain ⟨c1, _, hc1e⟩ := List.mem_map.mp (List.mem_filter.mp hi1mem).1
    obtain ⟨c2, _, hc2e⟩ := List.mem_map.mp (List.mem_filter.mp hi2mem).1
    have e1 : c1 = c := by
      rw [← hi1c, ← hc1e, probeContainer_container]
    have e2 : c2 = c := by
      rw [← hi2c, ← hc2e, probeContainer_container]
    have e12 : i1 = i2 := by
      rw [← hc1e, ← hc2e, e1, e2]
    rw [e12] at hp1
    rw [hp1] at hp2
    simp at hp2

/-- Witness for claim C1 at a concrete input: two containers, a non-empty
utility list, an executor for which every probe succeeds. -/
theorem verifyContainers_partition_witness :
    (["stat /bin/cat"] : List String) ≠ []
    ∧ ((refsOf (verifyContainers execAllOk ["stat /bin/cat"]
          [⟨"p1", "c1"⟩, ⟨"p2", "c2"⟩]).1
        ++ refsOf (verifyContainers execAllOk ["stat /bin/cat"]
          [⟨"p1", "c1"⟩, ⟨"p2", "c2"⟩]).2).Perm [⟨"p1", "c1"⟩, ⟨"p2", "c2"⟩]
      ∧ List.Disjoint
          (refsOf (verifyContainers execAllOk ["stat /bin/cat"]
            [⟨"p1", "c1"⟩, ⟨"p2", "c2"⟩]).1)
          (refsOf (verifyContainers execAllOk ["stat /bin/cat"]
            [⟨"p1", "c1"⟩, ⟨"p2", "c2"⟩]).2)) :=
  ⟨by decide,
   verifyContainers_partition execAllOk ["stat /bin/cat"]
     [⟨"p1", "c1"⟩, ⟨"p2", "c2"⟩] (by decide)⟩

/-- Unfolding of the `testable` field of a probed container. -/
theorem probeContainer_testable (exec : Exec) (utils : List String)
    (c : Container) :
    (probeContainer exec utils c).testable
      = (checkUtils exec c utils
          && ((probeContainer exec utils c).shell != "")) := rfl

/-- The recorded shell is computed exactly as the spec describes it. -/
theorem probeContainer_shell (exec : Exec) (utils : List String)
    (c : Container) :
    (probeContainer exec utils c).shell = specFirstSuccessfulShell exec c := by
  unfold probeContainer getShellInContainer specFirstSuccessfulShell
  by_cases h1 : (exec c (strFields "sh --version") none).retCode
      = RetCode.success
  · simp [h1]
  · by_cases h2 : (exec c (strFields "bash --version") none).retCode
        = RetCode.success
    · simp [h1, h2]
    · simp [h1, h2]

/-- Claim C3: the recorded shell is the first of the ordered candidate
list ("sh", then "bash") whose version probe succeeds (empty if neither),
`testable` is true iff the shell is non-empty and the utility check
succeeded, and when both shell probes fail (so the recorded shell is
empty) the container is not testable regardless of the utility probes. -/
theorem shell_selection_and_testable (exec : Exec) (utils : List String)
    (c : Container) :
    (probeContainer exec utils c).shell = specFirstSuccessfulShell exec c
    ∧ ((probeContainer exec utils c).testable = true
        ↔ ((probeContainer exec utils c).shell ≠ ""
            ∧ checkUtils exec c utils = true))
    ∧ (specFirstSuccessfulShell exec c = "" →
        (probeContainer exec utils c).testable = false) := by
  refine ⟨probeContainer_shell exec utils c, ?_, ?_⟩
  · rw [probeContainer_testable, Bool.and_eq_true, bne_iff_ne]
    tauto
  · intro hshell
    have hsh : (probeContainer exec utils c).shell = "" := by
      rw [probeContainer_shell, hshell]
    rw [probeContainer_testable, hsh]
    simp

/-- Witness for claim C3 at a concrete input: an executor for which every
probe fails, so neither candidate shell is found. -/
theorem shell_selection_and_testable_witness :
    (probeContainer execAllFail ["u1", "u2"] ⟨"p", "c"⟩).shell
      = specFirstSuccessfulShell execAllFail ⟨"p", "c"⟩
    ∧ ((probeContainer execAllFail ["u1", "u2"] ⟨"p", "c"⟩).testable = true
        ↔ ((probeContainer execAllFail ["u1", "u2"] ⟨"p", "c"⟩).shell ≠ ""
            ∧ checkUtils execAllFail ⟨"p", "c"⟩ ["u1", "u2"] = true))
    ∧ (specFirstSuccessfulShell execAllFail ⟨"p", "c"⟩ = "" →
        (probeContainer execAllFail ["u1", "u2"] ⟨"p", "c"⟩).testable
          = false) :=
  shell_selection_and_testable execAllFail ["u1", "u2"] ⟨"p", "c"⟩

/-- Agreement of the instrumented utility loop with the source loop. -/
theorem checkUtilsTrace_fst (exec : Exec) (c : Container) (acc : Bool)
    (utils : List String) :
    (checkUtilsTrace exec c acc utils).1 = checkUtilsAux exec c acc utils := by
  induction utils generalizing acc with
  | nil => rfl
  | cons util rest ih =>
      unfold checkUtilsTrace checkUtilsAux
      by_cases h : (checkUtilInContainer exec c util).1 = true
      · simp [h, ih]
      · simp [h]

/-- Claim C4: when the probe of the first required utility fails, the
utility loop issues no further probes (only the first utility is probed),
the utility check is false, and a container probed with that utility list
is classified nontestable by `verifyContainers`. -/
theorem firstUtilFail_shortCircuit (exec : Exec) (c : Container)
    (util : String) (rest : List String)
    (h : (checkUtilInContainer exec c util).1 = false) :
    (checkUtilsTrace exec c true (util :: rest)).2 = [util]
    ∧ checkUtils exec c (util :: rest) = false
    ∧ (verifyContainers exec (util :: rest) [c]).1 = []
    ∧ refsOf (verifyContainers exec (util :: rest) [c]).2 = [c] := by
  have htrace : (checkUtilsTrace exec c true (util :: rest)).2 = [util] := by
    unfold checkUtilsTrace
    simp [h]
  have hcheck : checkUtils exec c (util :: rest) = false := by
    unfold checkUtils checkUtilsAux
    simp [h]
  have htest : (probeContainer exec (util :: rest) c).testable = false := by
    rw [probeContainer_testable, hcheck]
    simp
  have hv : verifyContainers exec (util :: rest) [c] =
      ([probeContainer exec (util :: rest) c].filter (fun i => i.testable),
       [probeContainer exec (util :: rest) c].filter (fun i => !i.testable)) := by
    simp [verifyContainers]
  refine ⟨htrace, hcheck, ?_, ?_⟩
  · rw [hv]
    simp [List.filter, htest]
  · rw [hv]
    simp [List.filter, htest, refsOf, probeContainer_container]

/-- Witness for claim C4 at a concrete input: the executor reporting
command-not-found for `stat` probes fails the first utility `stat /bin/cat`,
so `stat /bin/grep` is never probed and the container is nontestable. -/
theorem firstUtilFail_shortCircuit_witness :
    (checkUtilInContainer execUtilNotFound ⟨"p", "c"⟩ "stat /bin/cat").1
        = false
    ∧ ((checkUtilsTrace execUtilNotFound ⟨"p", "c"⟩ true
          ["stat /bin/cat", "stat /bin/grep"]).2 = ["stat /bin/cat"]
      ∧ checkUtils execUtilNotFound ⟨"p", "c"⟩
          ["stat /bin/cat", "stat /bin/grep"] = false
      ∧ (verifyContainers execUtilNotFound ["stat /bin/cat", "stat /bin/grep"]
          [⟨"p", "c"⟩]).1 = []
      ∧ refsOf (verifyContainers execUtilNotFound
          ["stat /bin/cat", "stat /bin/grep"] [⟨"p", "c"⟩]).2 = [⟨"p", "c"⟩]) :=
  ⟨by decide,
   firstUtilFail_shortCircuit execUtilNotFound ⟨"p", "c"⟩ "stat /bin/cat"
     ["stat /bin/grep"] (by decide)⟩

/-- Claim C5: a scan result saved under the plain-text or ansi format has
file content exactly equal to the raw captured output (the joined output
lines), with no header or footer added. -/
theorem saveScan_plain_roundtrip (write : String → String → Option String)
    (convert : String → String)
    (directory format timestamp podName containerName : String)
    (scanReport : List String) (fn content : String)
    (hfmt : format = "text" ∨ format = "ansi")
    (hsave : saveScan write convert directory format timestamp podName
        containerName scanReport = .ok (fn, content)) :
    content = String.intercalate "\n" scanReport := by
  have hne : ¬ format = "html" := by
    rcases hfmt with h | h <;> rw [h] <;> decide
  simp only [saveScan, reportBytes, if_neg hne] at hsave
  split at hsave
  · exact absurd hsave (by simp)
  · simp only [Except.ok.injEq, Prod.mk.injEq] at hsave
    exact hsave.2.symm

/-- Witness for claim C5 at a concrete input: ansi format, two captured
output lines, a successful write. -/
theorem saveScan_plain_roundtrip_witness :
    (("ansi" : String) = "text" ∨ ("ansi" : String) = "ansi")
    ∧ saveScan writeOk id "d" "ansi" "ts" "p" "c" ["line1", "line2"]
        = .ok ("d/p-c-ts.ansi", "line1\nline2")
    ∧ ("line1\nline2" : String) = String.intercalate "\n" ["line1", "line2"] :=
  ⟨Or.inr rfl, by decide,
   saveScan_plain_roundtrip writeOk id "d" "ansi" "ts" "p" "c"
     ["line1", "line2"] "d/p-c-ts.ansi" "line1\nline2" (Or.inr rfl)
     (by decide)⟩

/-- Claim C6: a scan result saved under the html format has file content
beginning with the fixed XHTML header, ending with the fixed footer, and
carrying between them the captured output passed through the
ANSI-to-HTML converter. -/
theorem saveScan_html_wrapped (write : String → String → Option String)
    (convert : String → String)
    (directory timestamp podName containerName : String)
    (scanReport : List String) (fn content : String)
    (hsave : saveScan write convert directory "html" timestamp podName
        containerName scanReport = .ok (fn, content)) :
    content = htmlHeader ++ convert (String.intercalate "\n" scanReport)
      ++ htmlFooter := by
  simp only [saveScan, reportBytes, if_pos rfl] at hsave
  split at hsave
  · exact absurd hsave (by simp)
  · simp only [Except.ok.injEq, Prod.mk.injEq] at hsave
    exact hsave.2.symm

set_option maxRecDepth 40000

/-- Witness for claim C6 at a concrete input: html format with the
identity converter and a successful write. -/
theorem saveScan_html_wrapped_witness :
    saveScan writeOk id "d" "html" "ts" "p" "c" ["line1"]
        = .ok ("d/p-c-ts.html", htmlHeader ++ "line1" ++ htmlFooter)
    ∧ (htmlHeader ++ "line1" ++ htmlFooter : String)
        = htmlHeader ++ id (String.intercalate "\n" ["line1"]) ++ htmlFooter :=
  ⟨by decide,
   saveScan_html_wrapped writeOk id "d" "ts" "p" "c" ["line1"]
     "d/p-c-ts.html" (htmlHeader ++ "line1" ++ htmlFooter) (by decide)⟩

/-- Claim C7 (code bug): the pre-run validation of the output format in
root.go accepts `ansi`, `text` and `json` and rejects `html`, although
the program's own error message, flag help, README and the html branch of
`saveScan` all state that the valid formats are `ansi`, `text` and
`html`. This theorem evaluates the validation at the failing inputs. -/
theorem validateFormat_enumeration :
    validateFormat "ansi" = .ok ()
    ∧ validateFormat "text" = .ok ()
    ∧ validateFormat "json" = .ok ()
    ∧ validateFormat "html"
        = .error "Invalid value of the output format option -o. Valid values are ansi, text or html" := by
  decide

/-- Claim C8: with an empty required-utility list or an empty discovered
container list, probing classifies nothing (both classification lists are
empty) and the run aborts before the scan stage with the appropriate
distinct condition: no-containers-found when the discovered list is
empty, otherwise nothing-to-test. -/
theorem emptyInputs_abort (ns : String) (quiet answerYes : Bool)
    (write : String → String → Option String) (convert : String → String)
    (directory format timestamp : String) (exec : Exec) (script : String)
    (utils : List String) (containers : List Container)
    (h : utils = [] ∨ containers = []) :
    verifyContainers exec utils containers = ([], [])
    ∧ (containers = [] →
        scanContainers ns quiet answerYes write convert directory format
          timestamp exec script utils containers
          = .error ("[-] No pods/containers found in namespace \"" ++ ns
              ++ "\"\n"))
    ∧ (containers ≠ [] →
        scanContainers ns quiet answerYes write convert directory format
          timestamp exec script utils containers
          = .error "[-] Did not find any containers that can be tested") := by
  have hverify : verifyContainers exec utils containers = ([], []) := by
    rcases h with h | h
    · simp [verifyContainers, h]
    · subst h
      by_cases hu : utils.length = 0 <;> simp [verifyContainers, hu]
  refine ⟨hverify, ?_, ?_⟩
  · intro hc
    subst hc
    simp [scanContainers]
  · intro hc
    have hlen : ¬ containers.length = 0 := by
      simpa [List.length_eq_zero] using hc
    simp [scanContainers, hlen, scan, hverify]

/-- Witness for claim C8 at a concrete input: empty utility list, one
discovered container. -/
theorem emptyInputs_abort_witness :
    (([] : List String) = [] ∨ ([⟨"p", "c"⟩] : List Container) = [])
    ∧ (verifyContainers execAllOk [] [⟨"p", "c"⟩] = ([], [])
      ∧ (([⟨"p", "c"⟩] : List Container) = [] →
          scanContainers "ns" true true writeOk id "d" "ansi" "ts" execAllOk
            "scr" [] [⟨"p", "c"⟩]
            = .error ("[-] No pods/containers found in namespace \"" ++ "ns"
                ++ "\"\n"))
      ∧ (([⟨"p", "c"⟩] : List Container) ≠ [] →
          scanContainers "ns" true true writeOk id "d" "ansi" "ts" execAllOk
            "scr" [] [⟨"p", "c"⟩]
            = .error "[-] Did not find any containers that can be tested")) :=
  ⟨Or.inl rfl,
   emptyInputs_abort "ns" true true writeOk id "d" "ansi" "ts" execAllOk
     "scr" [] [⟨"p", "c"⟩] (Or.inl rfl)⟩

/-- One writer step advances the progress counter by exactly one, whether
the file write succeeded or failed. -/
theorem writerStep_cnt (quiet : Bool)
    (write : String → String → Option String) (convert : String → String)
    (directory format timestamp : String) (st : WriterState) (r : Result) :
    (writerStep quiet write convert directory format timestamp st r).cnt
      = st.cnt + 1 := by
  unfold writerStep
  split <;> rfl

/-- The progress counter after draining the results queue equals the
number of results received. -/
theorem reportWriter_cnt (quiet : Bool)
    (write : String → String → Option String) (convert : String → String)
    (directory format timestamp : String) (results : List Result) :
    (reportWriter quiet write convert directory format timestamp
      results).cnt = results.length := by
  suffices h : ∀ (st : WriterState) (rs : List Result),
      (rs.foldl (writerStep quiet write convert directory format timestamp)
        st).cnt = st.cnt + rs.length by
    simpa [reportWriter] using h ⟨[], [], 0⟩ results
  intro st rs
  induction rs generalizing st with
  | nil => simp
  | cons r rest ih =>
      simp only [List.foldl_cons, List.length_cons, ih, writerStep_cnt]
      omega

/-- Claim C10: every container taken from the scan input queue yields
exactly one `Result` on the results queue regardless of the remote
execution outcome, and the progress counter after the results queue is
drained equals the number of testable containers dispatched. -/
theorem oneResult_perContainer (quiet : Bool)
    (write : String → String → Option String) (convert : String → String)
    (directory format timestamp : String) (exec : Exec) (script : String)
    (targets : List ContainerInfo) :
    (scanPipeline quiet write convert directory format timestamp exec
        script targets).1.length = targets.length
    ∧ (scanPipeline quiet write convert directory format timestamp exec
        script targets).2.2.cnt = targets.length := by
  constructor
  · simp [scanPipeline]
  · simp [scanPipeline, reportWriter_cnt]

/-- Counterexample to claim C2: quiet mode, one testable container (shell
and utility probes succeed) whose scan execution fails with captured error
text `boom` — yet one report file is written (carrying the empty captured
stdout) and zero log entries are recorded, where the claim expects zero
report files and one log entry. -/
theorem scanFailure_counterexample :
    scan true true writeOk id "d" "ansi" "ts" execScanFails "scr"
        ["stat /bin/cat"] [⟨"p", "c"⟩]
      = .ok ([("d/p-c-ts.ansi", "")], [], 1)
    ∧ (execScanFails ⟨"p", "c"⟩ ["sh"] (some "scr")).retCode
      = RetCode.otherFailure := by
  decide

/-- Claim C2 as amended: for every testable container whose remote scan
execution returns a non-success status, the worker logs the captured
error text only when quiet mode is off (the message is dropped when quiet
is set), and still emits a `Result` carrying the captured stdout, so the
report writer still writes a report file for that container when the file
write succeeds. -/
theorem scanFailure_logged_result_still_written (quiet : Bool) (exec : Exec)
    (script format : String) (info : ContainerInfo)
    (convert : String → String) (directory timestamp : String)
    (hfail : (exec info.container
        (strFields (scanShellInvocation format info.shell))
        (some script)).retCode ≠ RetCode.success) :
    (scanWorker quiet exec script format info).1
      = ⟨info.container.pod, info.container.container,
         (exec info.container
           (strFields (scanShellInvocation format info.shell))
           (some script)).stdout⟩
    ∧ (scanWorker quiet exec script format info).2
      = logMsg quiet (String.intercalate "\n"
          (exec info.container
            (strFields (scanShellInvocation format info.shell))
            (some script)).error)
    ∧ (reportWriter quiet writeOk convert directory format timestamp
        [(scanWorker quiet exec script format info).1]).files.length = 1 := by
  refine ⟨rfl, ?_, ?_⟩
  · simp [scanWorker, hfail]
  · simp [reportWriter, writerStep, saveScan, writeOk]

/-- Witness for the amended claim C2 at a concrete input: the executor
whose scan invocation fails, quiet mode off. -/
theorem scanFailure_logged_result_still_written_witness :
    (execScanFails (⟨⟨"p", "c"⟩, "sh", true⟩ : ContainerInfo).container
        (strFields (scanShellInvocation "ansi"
          (⟨⟨"p", "c"⟩, "sh", true⟩ : ContainerInfo).shell))
        (some "scr")).retCode ≠ RetCode.success
    ∧ ((scanWorker false execScanFails "scr" "ansi"
          ⟨⟨"p", "c"⟩, "sh", true⟩).1
        = ⟨(⟨⟨"p", "c"⟩, "sh", true⟩ : ContainerInfo).container.pod,
           (⟨⟨"p", "c"⟩, "sh", true⟩ : ContainerInfo).container.container,
           (execScanFails (⟨⟨"p", "c"⟩, "sh", true⟩ : ContainerInfo).container
             (strFields (scanShellInvocation "ansi"
               (⟨⟨"p", "c"⟩, "sh", true⟩ : ContainerInfo).shell))
             (some "scr")).stdout⟩
      ∧ (scanWorker false execScanFails "scr" "ansi"
          ⟨⟨"p", "c"⟩, "sh", true⟩).2
        = logMsg false (String.intercalate "\n"
            (execScanFails (⟨⟨"p", "c"⟩, "sh", true⟩ : ContainerInfo).container
              (strFields (scanShellInvocation "ansi"
                (⟨⟨"p", "c"⟩, "sh", true⟩ : ContainerInfo).shell))
              (some "scr")).error)
      ∧ (reportWriter false writeOk id "d" "ansi" "ts"
          [(scanWorker false execScanFails "scr" "ansi"
            ⟨⟨"p", "c"⟩, "sh", true⟩).1]).files.length = 1) :=
  ⟨by decide,
   scanFailure_logged_result_still_written false execScanFails "scr" "ansi"
     ⟨⟨"p", "c"⟩, "sh", true⟩ id "d" "ts" (by decide)⟩

/-- Counterexample to claim C9: two per-container failures absorbed with
no log entry. First, in quiet mode a scan-execution failure (status
`otherFailure`, error text `boom`) produces no log entry. Second, in any
mode the prober worker emits no log entry even though the shell probe
returned an error with captured text `errtext`. -/
theorem silentFailure_counterexample :
    (scanWorker true execScanFails "scr" "ansi"
        ⟨⟨"p", "c"⟩, "sh", true⟩).2 = []
    ∧ (execScanFails ⟨"p", "c"⟩ ["sh"] (some "scr")).retCode
      = RetCode.otherFailure
    ∧ (proberWorkerStep execAllFail ["u"] ⟨"p", "c"⟩).2 = []
    ∧ getShellInContainer execAllFail ⟨"p", "c"⟩ = .error "errtext" := by
  decide

/-- Claim C9 as amended: scan-execution failures and report-write
failures are logged exactly when quiet mode is off (the log function
drops every message in quiet mode), while shell/utility probe errors are
discarded without any log entry in every mode — probing failures surface
only as the nontestable classification. -/
theorem failureLogging_policy (exec : Exec) (script format : String)
    (info : ContainerInfo) (write : String → String → Option String)
    (convert : String → String) (directory timestamp : String)
    (st : WriterState) (r : Result) (err : String)
    (utils : List String) (c : Container)
    (hfail : (exec info.container
        (strFields (scanShellInvocation format info.shell))
        (some script)).retCode ≠ RetCode.success)
    (hwrite : saveScan write convert directory format timestamp r.podName
        r.containerName r.scanReport = .error err) :
    (scanWorker false exec script format info).2
      = [String.intercalate "\n"
          (exec info.container
            (strFields (scanShellInvocation format info.shell))
            (some script)).error]
    ∧ (scanWorker true exec script format info).2 = []
    ∧ (writerStep false write convert directory format timestamp st r).logs
      = st.logs ++ [err, String.intercalate "\n" r.scanReport,
          "\rAnalyzed " ++ toString (st.cnt + 1) ++ " containers"]
    ∧ (writerStep true write convert directory format timestamp st r).logs
      = st.logs
    ∧ (proberWorkerStep exec utils c).2 = [] := by
  refine ⟨?_, ?_, ?_, ?_, rfl⟩
  · simp [scanWorker, hfail, logMsg]
  · simp [scanWorker, logMsg]
  · simp [writerStep, hwrite, logMsg]
  · cases hsv : saveScan write convert directory format timestamp r.podName
        r.containerName r.scanReport <;> simp [writerStep, hsv, logMsg]

/-- Witness for the amended claim C9 at a concrete input: failing scan
executor, failing file writer. -/
theorem failureLogging_policy_witness :
    ((execScanFails (⟨⟨"p", "c"⟩, "sh", true⟩ : ContainerInfo).container
        (strFields (scanShellInvocation "ansi"
          (⟨⟨"p", "c"⟩, "sh", true⟩ : ContainerInfo).shell))
        (some "scr")).retCode ≠ RetCode.success)
    ∧ saveScan writeFail id "d" "ansi" "ts" (⟨"p", "c", ["out"]⟩ : Result).podName
        (⟨"p", "c", ["out"]⟩ : Result).containerName
        (⟨"p", "c", ["out"]⟩ : Result).scanReport = .error "werr"
    ∧ ((scanWorker false execScanFails "scr" "ansi"
          ⟨⟨"p", "c"⟩, "sh", true⟩).2
        = [String.intercalate "\n"
            (execScanFails (⟨⟨"p", "c"⟩, "sh", true⟩ : ContainerInfo).container
              (strFields (scanShellInvocation "ansi"
                (⟨⟨"p", "c"⟩, "sh", true⟩ : ContainerInfo).shell))
              (some "scr")).error]
      ∧ (scanWorker true execScanFails "scr" "ansi"
          ⟨⟨"p", "c"⟩, "sh", true⟩).2 = []
      ∧ (writerStep false writeFail id "d" "ansi" "ts"
          (⟨[], [], 0⟩ : WriterState) ⟨"p", "c", ["out"]⟩).logs
        = (⟨[], [], 0⟩ : WriterState).logs
          ++ ["werr",
              String.intercalate "\n" (⟨"p", "c", ["out"]⟩ : Result).scanReport,
              "\rAnalyzed "
                ++ toString ((⟨[], [], 0⟩ : WriterState).cnt + 1)
                ++ " containers"]
      ∧ (writerStep true writeFail id "d" "ansi" "ts"
          (⟨[], [], 0⟩ : WriterState) ⟨"p", "c", ["out"]⟩).logs
        = (⟨[], [], 0⟩ : WriterState).logs
      ∧ (proberWorkerStep execScanFails ["u"] ⟨"p", "c"⟩).2 = []) :=
  ⟨by decide, by decide,
   failureLogging_policy execScanFails "scr" "ansi" ⟨⟨"p", "c"⟩, "sh", true⟩
     writeFail id "d" "ts" ⟨[], [], 0⟩ ⟨"p", "c", ["out"]⟩ "werr" ["u"]
     ⟨"p", "c"⟩ (by decide) (by decide)⟩

end Kubelse
